import Mathlib

/-!
Shallow embedding of the `futures-jsonrpc` crate (files `src/lib.rs`,
`src/parser.rs`, `src/handler.rs`, `src/method.rs`).

JSON values are `serde_json::Value`; numbers are modelled as `Int` (no claim
depends on floating-point number representation).  JSON objects are modelled
as association lists; field access is first-match lookup and unknown fields
are ignored, matching the default `serde` derive behaviour.  The text layer
(`serde_json::from_str` / `to_string`) is an external collaborator: a message
is modelled as `Except String JsonValue` — either a syntax error produced by
the external JSON tokenizer, or the JSON value the text denotes.  The
`serde`-derived `Deserialize` impls for the structs of the crate are embedded
explicitly below (`deserializeRequest`, `deserializeResponse`,
`deserializeError`), since the `parse` functions of the crate are their composition
with `validate`.
-/

/-- Model of `serde_json::Value`, with numbers restricted to integers. -/
inductive JsonValue where
  | null : JsonValue
  | bool (b : Bool) : JsonValue
  | num (n : Int) : JsonValue
  | str (s : String) : JsonValue
  | arr (elems : List JsonValue) : JsonValue
  | obj (fields : List (String × JsonValue)) : JsonValue

/-- Model of `ErrorVariant` from `src/lib.rs`.  `JsonParseError` and `IoError` carry
foreign error types (`serde_json::Error`, `std::io::Error`); both are
modelled by their message string. -/
inductive ErrorVariant where
  | RwLockPoisoned : ErrorVariant
  | MethodSignatureNotFound (signature : String) : ErrorVariant
  | JsonParseError (e : String) : ErrorVariant
  | InvalidJsonRpcVersion : ErrorVariant
  | InvalidJsonRpcId : ErrorVariant
  | ResponseCannotContainResultAndError : ErrorVariant
  | ResponseMustContainResultOrError : ErrorVariant
  | NoRequestProvided : ErrorVariant
  | IoError (e : String) : ErrorVariant
  | InternalError : ErrorVariant
  | InternalErrorMessage (s : String) : ErrorVariant
  deriving DecidableEq, Repr

/-- Model of `JrpcRequest` from `src/parser.rs` lines 4-10. -/
structure JrpcRequest where
  jsonrpc : String
  method : String
  params : Option JsonValue
  id : Option JsonValue

/-- Model of `JrpcError` from `src/parser.rs` lines 232-237. -/
structure JrpcError where
  code : Int
  message : String
  data : Option JsonValue

/-- Model of `JrpcResponse` from `src/parser.rs` lines 96-102. -/
structure JrpcResponse where
  jsonrpc : String
  result : Option JsonValue
  error : Option JrpcError
  id : JsonValue

/-- Model of `JrpcResponseParam` from `src/parser.rs` lines 80-84. -/
inductive JrpcResponseParam where
  | JrpcResult (v : JsonValue) : JrpcResponseParam
  | JrpcError (e : JrpcError) : JrpcResponseParam

/-- Shape check on a request `id`, from the `match` in `JrpcRequest::validate`
(`src/parser.rs` lines 48-54): a present `id` must be a string, number or
null. -/
def requestIdOk : Option JsonValue → Bool
  | some (JsonValue.str _) => true
  | some (JsonValue.num _) => true
  | some JsonValue.null => true
  | none => true
  | _ => false

/-- Model of `JrpcRequest::validate`, `src/parser.rs` lines 42-57. -/
def JrpcRequest.validate (self : JrpcRequest) : Except ErrorVariant JrpcRequest :=
  if self.jsonrpc ≠ "2.0" then
    Except.error ErrorVariant.InvalidJsonRpcVersion
  else if requestIdOk self.id = false then
    Except.error ErrorVariant.InvalidJsonRpcId
  else
    Except.ok self

/-- Model of `JrpcRequest::new`, `src/parser.rs` lines 13-26: builds the record with
`jsonrpc = "2.0"` and validates it. -/
def JrpcRequest.new (method : String) (params : Option JsonValue)
    (id : Option JsonValue) : Except ErrorVariant JrpcRequest :=
  JrpcRequest.validate { jsonrpc := "2.0", method := method, params := params, id := id }

/-- Model of `JrpcRequest::is_notification`, `src/parser.rs` lines 59-61. -/
def JrpcRequest.is_notification (self : JrpcRequest) : Bool :=
  self.id.isNone

/-- First-match field lookup in a JSON object, modelling the field
access on an object (unknown fields are ignored by the default derive). -/
def jsonLookup (fields : List (String × JsonValue)) (key : String) :
    Option JsonValue :=
  match fields with
  | [] => none
  | (k, v) :: rest => if k = key then some v else jsonLookup rest key

/-- Model of `serde` deserialization of a required field of type `String`. -/
def jsonFieldString (fields : List (String × JsonValue)) (key : String) :
    Except String String :=
  match jsonLookup fields key with
  | some (JsonValue.str s) => Except.ok s
  | some _ => Except.error ("invalid type for field " ++ key)
  | none => Except.error ("missing field " ++ key)

/-- Model of `serde` deserialization of a field of type `Option<Value>`: a missing
field and an explicit `null` both become `None`; any other value becomes
`Some`. -/
def jsonFieldOptValue (fields : List (String × JsonValue)) (key : String) :
    Option JsonValue :=
  match jsonLookup fields key with
  | none => none
  | some JsonValue.null => none
  | some v => some v

/-- The `serde`-derived `Deserialize` for `JrpcRequest`: the input must be a
JSON object; `jsonrpc` and `method` are required strings; `params` and `id`
are `Option<Value>` fields. -/
def deserializeRequest (v : JsonValue) : Except String JrpcRequest :=
  match v with
  | JsonValue.obj fields => do
      let jsonrpc ← jsonFieldString fields "jsonrpc"
      let method ← jsonFieldString fields "method"
      Except.ok { jsonrpc := jsonrpc, method := method,
                  params := jsonFieldOptValue fields "params",
                  id := jsonFieldOptValue fields "id" }
  | _ => Except.error "invalid type: expected a JSON object"

/-- The `serde`-derived `Serialize` for `JrpcRequest`: all four fields are
emitted, an absent `Option` field as `null`. -/
def serializeRequest (r : JrpcRequest) : JsonValue :=
  JsonValue.obj
    [("jsonrpc", JsonValue.str r.jsonrpc),
     ("method", JsonValue.str r.method),
     ("params", r.params.getD JsonValue.null),
     ("id", r.id.getD JsonValue.null)]

/-- Model of `JrpcRequest::parse`, `src/parser.rs` lines 28-33: deserialize the text
(any `serde_json` failure becomes `JsonParseError`), then `validate`.  The
input is the outcome of external JSON tokenization: `Except.error e` is a
malformed-JSON text, `Except.ok v` a text denoting the value `v`. -/
def JrpcRequest.parse (message : Except String JsonValue) :
    Except ErrorVariant JrpcRequest :=
  match message with
  | Except.error e => Except.error (ErrorVariant.JsonParseError e)
  | Except.ok v =>
      match deserializeRequest v with
      | Except.error e => Except.error (ErrorVariant.JsonParseError e)
      | Except.ok parsed => parsed.validate

/-- Shape check on a response `id`, from the `match` in
`JrpcResponse::validate` (`src/parser.rs` lines 160-165). -/
def responseIdOk : JsonValue → Bool
  | JsonValue.str _ => true
  | JsonValue.num _ => true
  | JsonValue.null => true
  | _ => false

/-- Model of `JrpcResponse::validate`, `src/parser.rs` lines 146-168.  Note the source
returns `ResponseCannotContainResultAndError` both when both fields are
present and when both are absent. -/
def JrpcResponse.validate (self : JrpcResponse) : Except ErrorVariant JrpcResponse :=
  if self.jsonrpc ≠ "2.0" then
    Except.error ErrorVariant.InvalidJsonRpcVersion
  else if self.result.isSome && self.error.isSome then
    Except.error ErrorVariant.ResponseCannotContainResultAndError
  else if self.result.isNone && self.error.isNone then
    Except.error ErrorVariant.ResponseCannotContainResultAndError
  else if responseIdOk self.id = false then
    Except.error ErrorVariant.InvalidJsonRpcId
  else
    Except.ok self

/-- Model of `JrpcResponse::new`, `src/parser.rs` lines 105-118. -/
def JrpcResponse.new (result : Option JsonValue) (error : Option JrpcError)
    (id : JsonValue) : Except ErrorVariant JrpcResponse :=
  JrpcResponse.validate
    { jsonrpc := "2.0", result := result, error := error, id := id }

/-- Model of `JrpcResponse::from_jrpc_request`, `src/parser.rs` lines 120-137. -/
def JrpcResponse.from_jrpc_request (request : JrpcRequest)
    (response : JrpcResponseParam) : Except ErrorVariant JrpcResponse :=
  let id := match request.id with
    | some i => i
    | none => JsonValue.null
  match response with
  | JrpcResponseParam.JrpcResult r => JrpcResponse.new (some r) none id
  | JrpcResponseParam.JrpcError e => JrpcResponse.new none (some e) id

/-- Model of `JrpcRequest::generate_response`, `src/parser.rs` lines 35-40. -/
def JrpcRequest.generate_response (self : JrpcRequest)
    (response : JrpcResponseParam) : Except ErrorVariant JrpcResponse :=
  JrpcResponse.from_jrpc_request self response

/-- The `serde`-derived `Deserialize` for `JrpcError`: a JSON object with a
required integer `code`, required string `message`, and `Option<Value>`
`data`. -/
def deserializeError (v : JsonValue) : Except String JrpcError :=
  match v with
  | JsonValue.obj fields => do
      let code ← match jsonLookup fields "code" with
        | some (JsonValue.num n) => Except.ok n
        | some _ => Except.error "invalid type for field code"
        | none => Except.error "missing field code"
      let message ← jsonFieldString fields "message"
      Except.ok { code := code, message := message,
                  data := jsonFieldOptValue fields "data" }
  | _ => Except.error "invalid type: expected a JSON object"

/-- The `serde`-derived `Deserialize` for `JrpcResponse`: `jsonrpc` is a
required string, `result` is `Option<Value>`, `error` is
`Option<JrpcError>`, and `id` is a required `Value` of any shape. -/
def deserializeResponse (v : JsonValue) : Except String JrpcResponse :=
  match v with
  | JsonValue.obj fields => do
      let jsonrpc ← jsonFieldString fields "jsonrpc"
      let error ← match jsonFieldOptValue fields "error" with
        | none => Except.ok none
        | some ev => (deserializeError ev).map some
      match jsonLookup fields "id" with
      | none => Except.error "missing field id"
      | some id =>
          Except.ok { jsonrpc := jsonrpc,
                      result := jsonFieldOptValue fields "result",
                      error := error, id := id }
  | _ => Except.error "invalid type: expected a JSON object"

/-- Model of `JrpcResponse::parse`, `src/parser.rs` lines 139-144: deserialize (any
`serde_json` failure becomes `JsonParseError`), then `validate`. -/
def JrpcResponse.parse (message : Except String JsonValue) :
    Except ErrorVariant JrpcResponse :=
  match message with
  | Except.error e => Except.error (ErrorVariant.JsonParseError e)
  | Except.ok v =>
      match deserializeResponse v with
      | Except.error e => Except.error (ErrorVariant.JsonParseError e)
      | Except.ok parsed => parsed.validate

/-- Model of `JrpcErrorEnum`, `src/parser.rs` lines 188-196. -/
inductive JrpcErrorEnum where
  | ParseError : JrpcErrorEnum
  | InvalidRequest : JrpcErrorEnum
  | MethodNotFound : JrpcErrorEnum
  | InvalidParams : JrpcErrorEnum
  | InternalError : JrpcErrorEnum
  | ServerError : JrpcErrorEnum
  | Other : JrpcErrorEnum
  deriving DecidableEq, Repr

/-- Model of `impl From<i32> for JrpcErrorEnum`, `src/parser.rs` lines 198-216: the
error-code classification function. -/
def JrpcErrorEnum.fromCode (code : Int) : JrpcErrorEnum :=
  if code = -32700 then JrpcErrorEnum.ParseError
  else if code = -32600 then JrpcErrorEnum.InvalidRequest
  else if code = -32601 then JrpcErrorEnum.MethodNotFound
  else if code = -32602 then JrpcErrorEnum.InvalidParams
  else if code = -32603 then JrpcErrorEnum.InternalError
  else if code ≥ -32099 ∧ code ≤ -32000 then JrpcErrorEnum.ServerError
  else JrpcErrorEnum.Other

/-- Model of `impl From<JrpcErrorEnum> for i32`, `src/parser.rs` lines 218-230. -/
def JrpcErrorEnum.toCode : JrpcErrorEnum → Int
  | JrpcErrorEnum.ParseError => -32700
  | JrpcErrorEnum.InvalidRequest => -32600
  | JrpcErrorEnum.MethodNotFound => -32601
  | JrpcErrorEnum.InvalidParams => -32602
  | JrpcErrorEnum.InternalError => -32603
  | JrpcErrorEnum.ServerError => -32000
  | JrpcErrorEnum.Other => 0

/-- Model of `JrpcError::new`, `src/parser.rs` lines 240-246. -/
def JrpcError.new (code : Int) (message : String) (data : Option JsonValue) :
    JrpcError :=
  { code := code, message := message, data := data }

/-- Model of `impl From<JrpcErrorEnum> for JrpcError`, `src/parser.rs` lines 269-285:
canonical message plus the code of the enum, no data. -/
def JrpcError.fromEnum (error_enum : JrpcErrorEnum) : JrpcError :=
  let message := match error_enum with
    | JrpcErrorEnum.ParseError => "Invalid JSON was received by the server. An error occurred on the server while parsing the JSON text."
    | JrpcErrorEnum.InvalidRequest => "The JSON sent is not a valid Request object."
    | JrpcErrorEnum.MethodNotFound => "The method does not exist / is not available."
    | JrpcErrorEnum.InvalidParams => "Invalid method parameter(s)."
    | JrpcErrorEnum.InternalError => "Internal JSON-RPC error."
    | JrpcErrorEnum.ServerError => "Reserved for implementation-defined server-errors."
    | JrpcErrorEnum.Other => "JsonRpc Error"
  JrpcError.new error_enum.toCode message none

/-- Model of `impl From<i32> for JrpcError`, `src/parser.rs` lines 287-292. -/
def JrpcError.fromCode (error_code : Int) : JrpcError :=
  JrpcError.fromEnum (JrpcErrorEnum.fromCode error_code)

/-- Model of `impl From<ErrorVariant> for JrpcError`, `src/parser.rs` lines 294-306.
The source matches `ErrorVariant::MethodSignatureNotFound` without binding
the `String` payload declared in `src/lib.rs`; the pattern here binds and
discards it, the only reading consistent with the enum declaration. -/
def JrpcError.fromErrorVariant (error_variant : ErrorVariant) : JrpcError :=
  match error_variant with
  | ErrorVariant.MethodSignatureNotFound _ => JrpcError.fromCode (-32601)
  | ErrorVariant.JsonParseError _ => JrpcError.fromCode (-32700)
  | ErrorVariant.InvalidJsonRpcVersion => JrpcError.fromCode (-32600)
  | ErrorVariant.InvalidJsonRpcId => JrpcError.fromCode (-32600)
  | ErrorVariant.ResponseCannotContainResultAndError => JrpcError.fromCode (-32600)
  | ErrorVariant.ResponseMustContainResultOrError => JrpcError.fromCode (-32600)
  | _ => JrpcError.fromCode (-32603)

/-- Lookup in the registry `HashMap<String, _>` (`hm.get` in
`src/handler.rs` line 55), modelled on an association list. -/
def hmGet {α : Type} (methods : List (String × α)) (signature : String) :
    Option α :=
  match methods with
  | [] => none
  | (k, v) :: rest => if k = signature then some v else hmGet rest signature

/-- Model of `HashMap::insert` (`src/handler.rs` line 31): last-writer-wins binding of
a signature to a handler capability. -/
def hmInsert {α : Type} (methods : List (String × α)) (signature : String)
    (m : α) : List (String × α) :=
  (signature, m) :: methods.filter (fun kv => kv.1 ≠ signature)

/-- A handler capability: `JrpcMethodTrait::generate_future` from
`src/method.rs`, producing a pending computation of type `F` (the boxed
future) or failing.  The registry of `JrpcHandler` (`src/handler.rs` line 7)
is the map from signature to capability; the `Arc<RwLock<_>>` wrapper is
concurrency plumbing, modelled as a registry value with the lock always
available (lock failure would surface as `RwLockPoisoned`). -/
def JrpcMethodFn (F : Type) : Type :=
  JrpcRequest → Except ErrorVariant F

/-- Model of `JrpcHandler::register_method`, `src/handler.rs` lines 17-38, in the
sequential model (the `try_write` lock acquisition succeeds). -/
def JrpcHandler.register_method {F : Type}
    (methods : List (String × JrpcMethodFn F)) (signature : String)
    (jrpc_method : JrpcMethodFn F) : List (String × JrpcMethodFn F) :=
  hmInsert methods signature jrpc_method

/-- Model of `JrpcHandler::handle_message`, `src/handler.rs` lines 40-64, in the
sequential model (the `try_read` lock acquisition succeeds): parse the
message, look the method up, and ask the capability for a future.  On a
missing method the source writes `Err(ErrorVariant::MethodSignatureNotFound)`
with no signature argument (line 57), which does not type-check against the
`MethodSignatureNotFound(String)` variant declared in `src/lib.rs` line 222;
following that declaration and the crate documentation (`src/lib.rs` lines
63-64, "an instance of `Err(ErrorVariant::MethodSignatureNotFound(String))`
is returned"), the model attaches the requested signature. -/
def JrpcHandler.handle_message {F : Type}
    (methods : List (String × JrpcMethodFn F))
    (message : Except String JsonValue) : Except ErrorVariant F :=
  match JrpcRequest.parse message with
  | Except.error e => Except.error e
  | Except.ok request =>
      match hmGet methods request.method with
      | none => Except.error (ErrorVariant.MethodSignatureNotFound request.method)
      | some m => m request

/-- The Response invariant claimed by the specification: exactly one of
`result`/`error` is present, and the `id` has an allowed shape. -/
def respInvariant (r : JrpcResponse) : Bool :=
  (r.result.isSome != r.error.isSome) && responseIdOk r.id

lemma request_validate_ok_iff (x y : JrpcRequest) :
    JrpcRequest.validate x = Except.ok y ↔
      x.jsonrpc = "2.0" ∧ requestIdOk x.id = true ∧ y = x := by
  unfold JrpcRequest.validate
  split_ifs with h1 h2
  · constructor
    · intro h
      exact h.elim
    · rintro ⟨ha, -, -⟩
      exact absurd ha h1
  · constructor
    · intro h
      exact h.elim
    · rintro ⟨-, hb, -⟩
      rw [hb] at h2
      exact Bool.noConfusion h2
  · constructor
    · intro h
      refine ⟨not_ne_iff.mp h1, ?_, (Except.ok.inj h).symm⟩
      cases hb : requestIdOk x.id with
      | false => exact absurd hb h2
      | true => rfl
    · rintro ⟨-, -, rfl⟩
      rfl

lemma response_validate_ok_iff (x y : JrpcResponse) :
    JrpcResponse.validate x = Except.ok y ↔
      x.jsonrpc = "2.0" ∧ respInvariant x = true ∧ y = x := by
  unfold JrpcResponse.validate
  split_ifs with h1 h2 h3 h4
  · constructor
    · intro h
      exact h.elim
    · rintro ⟨ha, -, -⟩
      exact absurd ha h1
  · constructor
    · intro h
      exact h.elim
    · rintro ⟨-, hb, -⟩
      rw [Bool.and_eq_true] at h2
      unfold respInvariant at hb
      rw [h2.1, h2.2] at hb
      simp at hb
  · constructor
    · intro h
      exact h.elim
    · rintro ⟨-, hb, -⟩
      rw [Bool.and_eq_true] at h3
      unfold respInvariant at hb
      rw [Option.isNone_iff_eq_none.mp h3.1,
          Option.isNone_iff_eq_none.mp h3.2] at hb
      simp at hb
  · constructor
    · intro h
      exact h.elim
    · rintro ⟨-, hb, -⟩
      unfold respInvariant at hb
      rw [h4] at hb
      simp at hb
  · have hxor : (x.result.isSome != x.error.isSome) = true := by
      cases hr : x.result <;> cases he : x.error <;> rw [hr, he] at h2 h3 <;>
        simp_all
    have hid : responseIdOk x.id = true := by
      cases hi : responseIdOk x.id with
      | false => exact absurd hi h4
      | true => rfl
    constructor
    · intro h
      exact ⟨not_ne_iff.mp h1, by rw [respInvariant, hxor, hid]; rfl,
        (Except.ok.inj h).symm⟩
    · rintro ⟨-, -, rfl⟩
      rfl

/-- C6: the error-code classification function (`impl From<i32> for
JrpcErrorEnum`) maps -32700 to `ParseError`, -32600 to `InvalidRequest`,
-32601 to `MethodNotFound`, -32602 to `InvalidParams`, -32603 to
`InternalError`, every integer in the closed range [-32099, -32000] to
`ServerError`, and every other integer to `Other`. -/
theorem errorCode_classification_spec :
    JrpcErrorEnum.fromCode (-32700) = JrpcErrorEnum.ParseError ∧
    JrpcErrorEnum.fromCode (-32600) = JrpcErrorEnum.InvalidRequest ∧
    JrpcErrorEnum.fromCode (-32601) = JrpcErrorEnum.MethodNotFound ∧
    JrpcErrorEnum.fromCode (-32602) = JrpcErrorEnum.InvalidParams ∧
    JrpcErrorEnum.fromCode (-32603) = JrpcErrorEnum.InternalError ∧
    (∀ c : Int, -32099 ≤ c → c ≤ -32000 →
      JrpcErrorEnum.fromCode c = JrpcErrorEnum.ServerError) ∧
    (∀ c : Int, c ≠ -32700 → c ≠ -32600 → c ≠ -32601 → c ≠ -32602 →
      c ≠ -32603 → ¬(-32099 ≤ c ∧ c ≤ -32000) →
      JrpcErrorEnum.fromCode c = JrpcErrorEnum.Other) := by
  refine ⟨by decide, by decide, by decide, by decide, by decide, ?_, ?_⟩
  · intro c h1 h2
    unfold JrpcErrorEnum.fromCode
    rw [if_neg (by omega), if_neg (by omega), if_neg (by omega),
        if_neg (by omega), if_neg (by omega), if_pos ⟨h1, h2⟩]
  · intro c h1 h2 h3 h4 h5 h6
    unfold JrpcErrorEnum.fromCode
    rw [if_neg h1, if_neg h2, if_neg h3, if_neg h4, if_neg h5, if_neg h6]

/-- Witness for C6: -32050 is classified as `ServerError` and 42 as
`Other`. -/
theorem errorCode_classification_spec_witness :
    JrpcErrorEnum.fromCode (-32050) = JrpcErrorEnum.ServerError ∧
    JrpcErrorEnum.fromCode 42 = JrpcErrorEnum.Other :=
  ⟨errorCode_classification_spec.2.2.2.2.2.1 (-32050) (by decide) (by decide),
   errorCode_classification_spec.2.2.2.2.2.2 42 (by decide) (by decide)
     (by decide) (by decide) (by decide) (by decide)⟩

/-- C7: classifying the integer obtained from an `ErrorCode` enumeration
value yields the value back — `From<JrpcErrorEnum> for i32` is a right
inverse of `From<i32> for JrpcErrorEnum`. -/
theorem errorCode_classify_code_of_rightInverse :
    ∀ e : JrpcErrorEnum, JrpcErrorEnum.fromCode e.toCode = e := by
  intro e
  cases e <;> rfl

/-- C5: `impl From<ErrorVariant> for JrpcError` maps a JSON parse failure to
-32700; invalid version, invalid id shape, and the result/error
both-or-neither violations to -32600; method-not-found to -32601; and lock
poisoning, the no-request-attached misuse, and every remaining internal
failure to -32603. -/
theorem errorVariant_wire_code_spec :
    (∀ e, (JrpcError.fromErrorVariant (ErrorVariant.JsonParseError e)).code = -32700) ∧
    (JrpcError.fromErrorVariant ErrorVariant.InvalidJsonRpcVersion).code = -32600 ∧
    (JrpcError.fromErrorVariant ErrorVariant.InvalidJsonRpcId).code = -32600 ∧
    (JrpcError.fromErrorVariant ErrorVariant.ResponseCannotContainResultAndError).code = -32600 ∧
    (JrpcError.fromErrorVariant ErrorVariant.ResponseMustContainResultOrError).code = -32600 ∧
    (∀ s, (JrpcError.fromErrorVariant (ErrorVariant.MethodSignatureNotFound s)).code = -32601) ∧
    (JrpcError.fromErrorVariant ErrorVariant.RwLockPoisoned).code = -32603 ∧
    (JrpcError.fromErrorVariant ErrorVariant.NoRequestProvided).code = -32603 ∧
    (∀ e, (JrpcError.fromErrorVariant (ErrorVariant.IoError e)).code = -32603) ∧
    (JrpcError.fromErrorVariant ErrorVariant.InternalError).code = -32603 ∧
    (∀ s, (JrpcError.fromErrorVariant (ErrorVariant.InternalErrorMessage s)).code = -32603) :=
  ⟨fun _ => rfl, rfl, rfl, rfl, rfl, fun _ => rfl, rfl, rfl, fun _ => rfl,
   rfl, fun _ => rfl⟩

/-- C1: `JrpcRequest::parse` deserializes and then validates: malformed JSON
text fails with `JsonParseError`; a deserialized request whose `jsonrpc`
field is not `"2.0"` fails with `InvalidJsonRpcVersion`; one whose `id` is
present but not a string, number or null fails with `InvalidJsonRpcId`;
otherwise the parsed request is returned. -/
theorem request_parse_spec :
    (∀ e, JrpcRequest.parse (Except.error e) =
      Except.error (ErrorVariant.JsonParseError e)) ∧
    (∀ v e, deserializeRequest v = Except.error e →
      JrpcRequest.parse (Except.ok v) =
        Except.error (ErrorVariant.JsonParseError e)) ∧
    (∀ v r, deserializeRequest v = Except.ok r → r.jsonrpc ≠ "2.0" →
      JrpcRequest.parse (Except.ok v) =
        Except.error ErrorVariant.InvalidJsonRpcVersion) ∧
    (∀ v r, deserializeRequest v = Except.ok r → r.jsonrpc = "2.0" →
      requestIdOk r.id = false →
      JrpcRequest.parse (Except.ok v) =
        Except.error ErrorVariant.InvalidJsonRpcId) ∧
    (∀ v r, deserializeRequest v = Except.ok r → r.jsonrpc = "2.0" →
      requestIdOk r.id = true →
      JrpcRequest.parse (Except.ok v) = Except.ok r) := by
  refine ⟨fun e => rfl, ?_, ?_, ?_, ?_⟩
  · intro v e h
    unfold JrpcRequest.parse
    show (match deserializeRequest v with
      | Except.error e => Except.error (ErrorVariant.JsonParseError e)
      | Except.ok parsed => parsed.validate) = _
    rw [h]
  · intro v r h hn
    unfold JrpcRequest.parse
    show (match deserializeRequest v with
      | Except.error e => Except.error (ErrorVariant.JsonParseError e)
      | Except.ok parsed => parsed.validate) = _
    rw [h]
    unfold JrpcRequest.validate
    show (if r.jsonrpc ≠ "2.0" then Except.error ErrorVariant.InvalidJsonRpcVersion
      else if requestIdOk r.id = false then Except.error ErrorVariant.InvalidJsonRpcId
      else Except.ok r) = _
    rw [if_pos hn]
  · intro v r h h20 hid
    unfold JrpcRequest.parse
    show (match deserializeRequest v with
      | Except.error e => Except.error (ErrorVariant.JsonParseError e)
      | Except.ok parsed => parsed.validate) = _
    rw [h]
    unfold JrpcRequest.validate
    show (if r.jsonrpc ≠ "2.0" then Except.error ErrorVariant.InvalidJsonRpcVersion
      else if requestIdOk r.id = false then Except.error ErrorVariant.InvalidJsonRpcId
      else Except.ok r) = _
    rw [if_neg (not_ne_iff.mpr h20), if_pos hid]
  · intro v r h h20 hid
    unfold JrpcRequest.parse
    show (match deserializeRequest v with
      | Except.error e => Except.error (ErrorVariant.JsonParseError e)
      | Except.ok parsed => parsed.validate) = _
    rw [h]
    unfold JrpcRequest.validate
    show (if r.jsonrpc ≠ "2.0" then Except.error ErrorVariant.InvalidJsonRpcVersion
      else if requestIdOk r.id = false then Except.error ErrorVariant.InvalidJsonRpcId
      else Except.ok r) = _
    rw [if_neg (not_ne_iff.mpr h20), if_neg (by simp [hid])]

/-- Witness for C1: a concrete well-formed request text parses
successfully. -/
theorem request_parse_spec_witness :
    JrpcRequest.parse (Except.ok (JsonValue.obj
      [("jsonrpc", JsonValue.str "2.0"), ("method", JsonValue.str "foo")])) =
      Except.ok { jsonrpc := "2.0", method := "foo", params := none,
                  id := none } :=
  request_parse_spec.2.2.2.2 _ _ rfl rfl rfl

/-- C2: every `JrpcResponse` successfully produced by `new`,
`from_jrpc_request`, `parse` or `validate` has exactly one of `result` and
`error` present and an id that is a string, number or null; and `new`
succeeds exactly when the record it builds satisfies that invariant. -/
theorem response_invariant_spec :
    (∀ res err id, (JrpcResponse.new res err id =
        Except.ok { jsonrpc := "2.0", result := res, error := err, id := id }) ↔
      respInvariant { jsonrpc := "2.0", result := res, error := err, id := id } = true) ∧
    (∀ res err id r, JrpcResponse.new res err id = Except.ok r →
      respInvariant r = true) ∧
    (∀ req p r, JrpcResponse.from_jrpc_request req p = Except.ok r →
      respInvariant r = true) ∧
    (∀ m r, JrpcResponse.parse m = Except.ok r → respInvariant r = true) ∧
    (∀ x r, JrpcResponse.validate x = Except.ok r → respInvariant r = true) := by
  have hval : ∀ x r, JrpcResponse.validate x = Except.ok r →
      respInvariant r = true := by
    intro x r h
    have hc := (response_validate_ok_iff x r).mp h
    rw [hc.2.2]
    exact hc.2.1
  refine ⟨?_, ?_, ?_, ?_, hval⟩
  · intro res err id
    constructor
    · intro h
      exact ((response_validate_ok_iff _ _).mp h).2.1
    · intro hinv
      exact (response_validate_ok_iff _ _).mpr ⟨rfl, hinv, rfl⟩
  · intro res err id r h
    exact hval _ r h
  · intro req p r h
    unfold JrpcResponse.from_jrpc_request at h
    cases p with
    | JrpcResult x => exact hval _ r h
    | JrpcError e => exact hval _ r h
  · intro m r h
    unfold JrpcResponse.parse at h
    split at h
    · exact Except.noConfusion h
    · split at h
      · exact Except.noConfusion h
      · exact hval _ r h

/-- Witness for C2: a concrete response built by `new` satisfies the
invariant. -/
theorem response_invariant_spec_witness :
    respInvariant { jsonrpc := "2.0", result := some JsonValue.null,
                    error := none, id := JsonValue.num 1 } = true :=
  response_invariant_spec.2.1 (some JsonValue.null) none (JsonValue.num 1)
    _ rfl

/-- C3: on a validated request, `generate_response` never fails; the
id of the response mirrors the id of the request (null when absent), `result` is
set exactly for the `JrpcResult` variant and `error` exactly for the
`JrpcError` variant. -/
theorem generate_response_spec :
    ∀ req : JrpcRequest, JrpcRequest.validate req = Except.ok req →
      (∀ x, req.generate_response (JrpcResponseParam.JrpcResult x) =
        Except.ok { jsonrpc := "2.0", result := some x, error := none,
                    id := req.id.getD JsonValue.null }) ∧
      (∀ e, req.generate_response (JrpcResponseParam.JrpcError e) =
        Except.ok { jsonrpc := "2.0", result := none, error := some e,
                    id := req.id.getD JsonValue.null }) := by
  intro req h
  obtain ⟨jj, mm, pp, ii⟩ := req
  have hc := (request_validate_ok_iff _ _).mp h
  have hj : jj = "2.0" := hc.1
  have hid : requestIdOk ii = true := hc.2.1
  subst hj
  cases ii with
  | none => exact ⟨fun x => rfl, fun e => rfl⟩
  | some v =>
    cases v with
    | str s => exact ⟨fun x => rfl, fun e => rfl⟩
    | num n => exact ⟨fun x => rfl, fun e => rfl⟩
    | null => exact ⟨fun x => rfl, fun e => rfl⟩
    | bool b => exact Bool.noConfusion hid
    | arr xs => exact Bool.noConfusion hid
    | obj fs => exact Bool.noConfusion hid

/-- Witness for C3: a concrete validated request with `id = 7` yields a
result response with `id = 7`. -/
theorem generate_response_spec_witness :
    JrpcRequest.generate_response
      { jsonrpc := "2.0", method := "m", params := none,
        id := some (JsonValue.num 7) }
      (JrpcResponseParam.JrpcResult (JsonValue.str "ok")) =
      Except.ok { jsonrpc := "2.0", result := some (JsonValue.str "ok"),
                  error := none, id := JsonValue.num 7 } :=
  (generate_response_spec
    { jsonrpc := "2.0", method := "m", params := none,
      id := some (JsonValue.num 7) } rfl).1 (JsonValue.str "ok")

/-- C4 (code-bug evidence): with an empty registry, `handle_message` on the
request text `{"jsonrpc":"2.0","method":"foobar","id":"1"}` fails with
`MethodSignatureNotFound` carrying the requested signature, and the wire
error derived from that failure has code -32601.  In `src/handler.rs` line
57 the failure value is built with no signature argument, which contradicts
the `MethodSignatureNotFound(String)` declaration in `src/lib.rs` line 222
and the crate documentation; the model attaches the signature, following the
declaration (see `JrpcHandler.handle_message`). -/
theorem handle_message_unknown_method :
    JrpcHandler.handle_message ([] : List (String × JrpcMethodFn Unit))
      (Except.ok (JsonValue.obj
        [("jsonrpc", JsonValue.str "2.0"),
         ("method", JsonValue.str "foobar"),
         ("id", JsonValue.str "1")])) =
      Except.error (ErrorVariant.MethodSignatureNotFound "foobar") ∧
    (JrpcError.fromErrorVariant
      (ErrorVariant.MethodSignatureNotFound "foobar")).code = -32601 :=
  ⟨rfl, rfl⟩

/-- C9 counterexample: `JrpcRequest::new` with an empty method succeeds;
`validate` never checks the method string. -/
theorem request_empty_method_accepted :
    JrpcRequest.new "" none none =
      Except.ok { jsonrpc := "2.0", method := "", params := none,
                  id := none } :=
  rfl

/-- C9 amended: construction and parsing never validate the method string:
`new` with an empty method succeeds whenever the id shape is valid, and a
request text with an empty `method` parses successfully. -/
theorem request_empty_method_spec :
    (∀ params id, requestIdOk id = true →
      JrpcRequest.new "" params id =
        Except.ok { jsonrpc := "2.0", method := "", params := params,
                    id := id }) ∧
    JrpcRequest.parse (Except.ok (JsonValue.obj
      [("jsonrpc", JsonValue.str "2.0"), ("method", JsonValue.str "")])) =
      Except.ok { jsonrpc := "2.0", method := "", params := none,
                  id := none } := by
  constructor
  · intro params id hid
    exact (request_validate_ok_iff _ _).mpr ⟨rfl, hid, rfl⟩
  · rfl

/-- Witness for the amended claim of C9: empty method with array params and a
numeric id is accepted by `new`. -/
theorem request_empty_method_spec_witness :
    JrpcRequest.new "" (some (JsonValue.arr [])) (some (JsonValue.num 3)) =
      Except.ok { jsonrpc := "2.0", method := "",
                  params := some (JsonValue.arr []),
                  id := some (JsonValue.num 3) } :=
  request_empty_method_spec.1 _ _ rfl

/-- C10: `JrpcRequest::parse` never rejects a request for the shape of
`params`: any envelope with `jsonrpc = "2.0"` and a valid id parses
successfully whatever JSON value sits in `params`. -/
theorem request_params_shape_never_validated :
    ∀ (method : String) (p i : JsonValue),
      requestIdOk (jsonFieldOptValue [("id", i)] "id") = true →
      JrpcRequest.parse (Except.ok (JsonValue.obj
        [("jsonrpc", JsonValue.str "2.0"),
         ("method", JsonValue.str method),
         ("params", p), ("id", i)])) =
        Except.ok { jsonrpc := "2.0", method := method,
                    params := jsonFieldOptValue [("params", p)] "params",
                    id := jsonFieldOptValue [("id", i)] "id" } := by
  intro method p i h
  have hdes : deserializeRequest (JsonValue.obj
      [("jsonrpc", JsonValue.str "2.0"), ("method", JsonValue.str method),
       ("params", p), ("id", i)]) =
      Except.ok { jsonrpc := "2.0", method := method,
                  params := jsonFieldOptValue [("params", p)] "params",
                  id := jsonFieldOptValue [("id", i)] "id" } := rfl
  unfold JrpcRequest.parse
  show (match deserializeRequest (JsonValue.obj
      [("jsonrpc", JsonValue.str "2.0"), ("method", JsonValue.str method),
       ("params", p), ("id", i)]) with
    | Except.error e => Except.error (ErrorVariant.JsonParseError e)
    | Except.ok parsed => parsed.validate) = _
  rw [hdes]
  exact (request_validate_ok_iff _ _).mpr ⟨rfl, h, rfl⟩

/-- Witness for C10: a boolean `params` value parses successfully. -/
theorem request_params_shape_never_validated_witness :
    JrpcRequest.parse (Except.ok (JsonValue.obj
      [("jsonrpc", JsonValue.str "2.0"), ("method", JsonValue.str "m"),
       ("params", JsonValue.bool true), ("id", JsonValue.num 1)])) =
      Except.ok { jsonrpc := "2.0", method := "m",
                  params := some (JsonValue.bool true),
                  id := some (JsonValue.num 1) } :=
  request_params_shape_never_validated "m" (JsonValue.bool true)
    (JsonValue.num 1) rfl

lemma field_collapse (key : String) (o : Option JsonValue)
    (ho : o ≠ some JsonValue.null) :
    jsonFieldOptValue [(key, o.getD JsonValue.null)] key = o := by
  cases o with
  | none => simp [jsonFieldOptValue, jsonLookup]
  | some v =>
    cases v with
    | null => exact absurd rfl ho
    | str s => simp [jsonFieldOptValue, jsonLookup]
    | num n => simp [jsonFieldOptValue, jsonLookup]
    | bool b => simp [jsonFieldOptValue, jsonLookup]
    | arr elems => simp [jsonFieldOptValue, jsonLookup]
    | obj fields => simp [jsonFieldOptValue, jsonLookup]

lemma deserialize_serialize (r : JrpcRequest)
    (hp : r.params ≠ some JsonValue.null) (hi : r.id ≠ some JsonValue.null) :
    deserializeRequest (serializeRequest r) = Except.ok r := by
  obtain ⟨jj, mm, pp, ii⟩ := r
  have hdes : deserializeRequest (serializeRequest ⟨jj, mm, pp, ii⟩) =
      Except.ok { jsonrpc := jj, method := mm,
                  params := jsonFieldOptValue
                    [("params", pp.getD JsonValue.null)] "params",
                  id := jsonFieldOptValue
                    [("id", ii.getD JsonValue.null)] "id" } := rfl
  rw [hdes, field_collapse _ pp hp, field_collapse _ ii hi]

/-- C8 counterexample: the valid request whose `id` is the explicitly
present JSON null (`Some(Null)`) does not survive a serialize/parse round
trip — the serialized `"id": null` deserializes back as an absent `id`. -/
theorem request_roundTrip_counterexample :
    JrpcRequest.validate { jsonrpc := "2.0", method := "foo", params := none,
                           id := some JsonValue.null } =
      Except.ok { jsonrpc := "2.0", method := "foo", params := none,
                  id := some JsonValue.null } ∧
    JrpcRequest.parse (Except.ok (serializeRequest
      { jsonrpc := "2.0", method := "foo", params := none,
        id := some JsonValue.null })) ≠
      Except.ok { jsonrpc := "2.0", method := "foo", params := none,
                  id := some JsonValue.null } := by
  refine ⟨rfl, ?_⟩
  intro h
  have h2 : JrpcRequest.parse (Except.ok (serializeRequest
      { jsonrpc := "2.0", method := "foo", params := none,
        id := some JsonValue.null })) =
      Except.ok { jsonrpc := "2.0", method := "foo", params := none,
                  id := none } := rfl
  rw [h2] at h
  exact Option.noConfusion (congrArg JrpcRequest.id (Except.ok.inj h))

/-- C8 amended: every valid request whose `params` and `id` fields are not
explicitly-present JSON nulls (`Some(Null)`) survives the round trip:
`parse(serialize(request)) = Ok(request)`; a `Some(Null)` field comes back
as absent. -/
theorem request_roundTrip_spec :
    ∀ r : JrpcRequest, JrpcRequest.validate r = Except.ok r →
      r.params ≠ some JsonValue.null → r.id ≠ some JsonValue.null →
      JrpcRequest.parse (Except.ok (serializeRequest r)) = Except.ok r := by
  intro r hv hp hi
  unfold JrpcRequest.parse
  show (match deserializeRequest (serializeRequest r) with
    | Except.error e => Except.error (ErrorVariant.JsonParseError e)
    | Except.ok parsed => parsed.validate) = _
  rw [deserialize_serialize r hp hi]
  exact hv

/-- Witness for the amended claim of C8: a concrete request with array params
and numeric id round-trips. -/
theorem request_roundTrip_spec_witness :
    JrpcRequest.parse (Except.ok (serializeRequest
      { jsonrpc := "2.0", method := "bar",
        params := some (JsonValue.arr []),
        id := some (JsonValue.num 5) })) =
      Except.ok { jsonrpc := "2.0", method := "bar",
                  params := some (JsonValue.arr []),
                  id := some (JsonValue.num 5) } :=
  request_roundTrip_spec
    { jsonrpc := "2.0", method := "bar", params := some (JsonValue.arr []),
      id := some (JsonValue.num 5) } rfl
    (fun h => JsonValue.noConfusion (Option.some.inj h))
    (fun h => JsonValue.noConfusion (Option.some.inj h))
